import Mathlib

/-!
Verification of the billing-event reconciliation subsystem
(`stripe_local/router.py` together with the row models of `models.py`).

The Python source is shallowly embedded:

* SQL rows become Lean structures; the database session becomes an explicit
  `DB` value holding the four tables as lists, threaded through every
  operation.
* Python truthiness on optional strings and integers is made explicit
  (`truthyStr`, `truthyInt`): `None`, the empty string and `0` are falsy.
* A commit that violates a uniqueness or not-null constraint raises
  `IntegrityError` in the source; an operation that can raise is embedded as
  `Except Unit _` with `.error ()` standing for the raised exception.
  Concurrent inserts committed by another task between this task's SELECT and
  its COMMIT are modelled by an explicit `Conc` argument: the constraint check
  at commit time also sees those rows.
* Calls out to the payment processor (`stripe.checkout.Session.retrieve`,
  `stripe.Subscription.retrieve`, signature verification) are modelled as
  input parameters; `none` means the call raised.
* JSON payload fields that the router reads are modelled as typed optional
  fields; `none` stands for an absent (or null) key.  Datetimes are unix
  seconds (`Nat`).

Note: the module defines `_to_dt_from_unix` and `_safe_int` twice; the later
definitions (lines 553-563) are the ones bound at call time for every handler,
so those are the ones embedded here.
-/

/-- Python truthiness of an optional string: `None` and `""` are falsy. -/
def truthyStr : Option String → Bool
  | none => false
  | some s => s != ""

/-- Python truthiness of an optional integer: `None` and `0` are falsy. -/
def truthyInt : Option Int → Bool
  | none => false
  | some n => n != 0

/-- Python `a or b` on optional strings: yields `b` whenever `a` is falsy. -/
def pyOrStr (a b : Option String) : Option String :=
  if truthyStr a then a else b

/-- Python `a or b` on optional integers: yields `b` whenever `a` is falsy. -/
def pyOrInt (a b : Option Int) : Option Int :=
  if truthyInt a then a else b

/-- Python `str.strip()`: whitespace dropped from both ends (modelled with
structural list operations so that it evaluates inside the kernel). -/
def pyStrip (s : String) : String :=
  String.mk (((s.data.dropWhile Char.isWhitespace).reverse.dropWhile Char.isWhitespace).reverse)

/-- `_safe_int` (effective definition, lines 559-563): `int(v)` under a
catch-all, so a missing value or an unparsable string yields `None`
(`int` itself ignores surrounding whitespace). -/
def safe_int (v : Option String) : Option Int :=
  v.bind (fun s => (pyStrip s).toInt?)

/-- `_to_dt_from_unix` (effective definition, lines 553-556): `if not ts`
treats both a missing timestamp and `0` as `None`.  Datetimes are kept as
unix seconds. -/
def to_dt_from_unix : Option Nat → Option Nat
  | none => none
  | some ts => if ts == 0 then none else some ts

/-- Replace the first list entry satisfying `p` (the single row matched by an
UPDATE on a unique key). -/
def updateFirst (p : α → Bool) (r : α) : List α → List α
  | [] => []
  | x :: xs => if p x then r :: xs else x :: updateFirst p r xs

-- -----------------------------
-- Event payload (typed view of the JSON the router reads)
-- -----------------------------

/-- An item's `price` object (`items.data[i].price`). -/
structure Price where
  id : Option String := none
deriving Repr, DecidableEq

/-- One entry of `items.data` on a subscription object. -/
structure SubItem where
  price : Option Price := none
deriving Repr, DecidableEq

/-- `parent.subscription_details` on an invoice object. -/
structure SubscriptionDetails where
  subscription : Option String := none
deriving Repr, DecidableEq

/-- `parent` on an invoice object. -/
structure ObjParent where
  subscription_details : Option SubscriptionDetails := none
deriving Repr, DecidableEq

/-- `lines.data[i].parent.subscription_item_details` on an invoice object. -/
structure SubItemDetails where
  subscription : Option String := none
deriving Repr, DecidableEq

/-- `lines.data[i].parent` on an invoice line. -/
structure LineParent where
  subscription_item_details : Option SubItemDetails := none
deriving Repr, DecidableEq

/-- One entry of `lines.data` on an invoice object. -/
structure InvoiceLine where
  parent : Option LineParent := none
deriving Repr, DecidableEq

/-- The `data.object` of an event, restricted to the fields the router reads.
Nested lookups that the source guards with `or {}` / `.get(k, {})` are
flattened to optional fields (`metadata_user_id` is `metadata.user_id`,
`status_transitions_paid_at` is `status_transitions.paid_at`, and so on);
`lines` is `lines.data` with `[]` for an absent list. -/
structure EventObj where
  id : Option String := none
  customer : Option String := none
  subscription : Option String := none
  parent : Option ObjParent := none
  lines : List InvoiceLine := []
  metadata_user_id : Option String := none
  metadata_transaction_id : Option String := none
  client_reference_id : Option String := none
  customer_details_email : Option String := none
  customer_email : Option String := none
  amount_paid : Option Int := none
  amount_due : Option Int := none
  currency : Option String := none
  status : Option String := none
  status_transitions_paid_at : Option Nat := none
  items : List SubItem := []
  cancel_at_period_end : Bool := false
  current_period_start : Option Nat := none
  current_period_end : Option Nat := none
  canceled_at : Option Nat := none
deriving Repr, DecidableEq

/-- A verified webhook event.  `data_object = none` models a payload without
`data.object`, on which line 381 raises `KeyError`. -/
structure Event where
  id : Option String := none
  type : Option String := none
  created : Option Nat := none
  data_object : Option EventObj := none
deriving Repr, DecidableEq

/-- The subscription object returned by `stripe.Subscription.retrieve`.
`id` and `customer` are accessed with `sub["..."]`, hence mandatory. -/
structure SubDetail where
  id : String
  customer : String
  status : Option String := none
  cancel_at_period_end : Bool := false
  current_period_start : Option Nat := none
  current_period_end : Option Nat := none
  canceled_at : Option Nat := none
  items : List SubItem := []
deriving Repr, DecidableEq

/-- `price_id = items[0].get("price", {}).get("id") if items else ""`
(lines 404-405, 460-461, 512-513). -/
def price_id_from_items (items : List SubItem) : Option String :=
  match items with
  | [] => some ""
  | it :: _ =>
    match it.price with
    | none => none
    | some p => p.id

-- -----------------------------
-- Rows (models.py) and database state
-- -----------------------------

/-- `stripe_events` row (models.py lines 84-99).  `stripe_event_id` is unique;
`processed_at` exists but is never written by the router. -/
structure StripeEvent where
  stripe_event_id : String
  type : String
  stripe_created : Option Nat := none
  received_at : Nat
  processed_at : Option Nat := none
  raw_json : Event
deriving Repr, DecidableEq

/-- `stripe_customers` row (models.py lines 105-119).  Both `user_id` and
`stripe_customer_id` are unique. -/
structure StripeCustomer where
  user_id : Int
  stripe_customer_id : String
  email : Option String := none
  created_at : Nat := 0
  updated_at : Nat := 0
deriving Repr, DecidableEq

/-- `stripe_subscriptions` row (models.py lines 125-147).
`stripe_subscription_id` is the only unique column; `price_id` is declared
`str` (NOT NULL, no default) at models.py line 137. -/
structure StripeSubscription where
  user_id : Int
  stripe_subscription_id : String
  stripe_customer_id : String
  price_id : String
  status : String
  cancel_at_period_end : Bool := false
  current_period_start : Option Nat := none
  current_period_end : Option Nat := none
  canceled_at : Option Nat := none
  transaction_id : Option String := none
  created_at : Nat := 0
  updated_at : Nat := 0
deriving Repr, DecidableEq

/-- `stripe_invoices` row (models.py lines 153-174).  `stripe_invoice_id` is
unique; `stripe_invoice_id` and `stripe_customer_id` are NOT NULL. -/
structure StripeInvoice where
  stripe_invoice_id : String
  stripe_customer_id : String
  stripe_subscription_id : Option String := none
  amount_paid : Option Int := none
  amount_due : Option Int := none
  currency : Option String := none
  status : Option String := none
  paid_at : Option Nat := none
  raw_json : EventObj
  created_at : Nat := 0
deriving Repr, DecidableEq

/-- The database state visible to one unit of work: the four tables. -/
structure DB where
  events : List StripeEvent := []
  customers : List StripeCustomer := []
  subscriptions : List StripeSubscription := []
  invoices : List StripeInvoice := []
deriving Repr, DecidableEq

/-- Rows committed by concurrently running tasks between this task's SELECT
and its COMMIT: the uniqueness constraints at commit time also see them. -/
structure Conc where
  customers : List StripeCustomer := []
  subscriptions : List StripeSubscription := []
  invoices : List StripeInvoice := []
deriving Repr, DecidableEq

/-- No concurrent writer. -/
def noConc : Conc := {}

-- -----------------------------
-- DB helpers (router.py lines 165-314)
-- -----------------------------

/-- `_insert_event_idempotent` (lines 165-185): INSERT the ledger row and
COMMIT; an `IntegrityError` (duplicate `stripe_event_id`, or a NULL id/type
hitting a NOT NULL column) is caught, the session rolled back, and `False`
returned. -/
def insert_event_idempotent (db : DB) (stripe_event_id : Option String)
    (type_ : Option String) (stripe_created : Option Nat) (raw_json : Event)
    (now : Nat) : Bool × DB :=
  match stripe_event_id, type_ with
  | some eid, some ty =>
    if db.events.any (fun r => r.stripe_event_id == eid) then (false, db)
    else
      (true, { db with events := db.events ++
        [{ stripe_event_id := eid, type := ty,
           stripe_created := to_dt_from_unix stripe_created,
           received_at := now, raw_json := raw_json }] })
  | _, _ => (false, db)

/-- `_upsert_customer` (lines 188-223): find by `user_id`, else by
`stripe_customer_id`, else insert.  The function has no try/except: an
`IntegrityError` raised by a COMMIT (the updated or inserted row clashing
with another committed row on a unique column) propagates to the caller,
modelled as `.error ()`. -/
def upsert_customer (db : DB) (conc : Conc) (user_id : Int)
    (stripe_customer_id : String) (email : Option String) (now : Nat) :
    Except Unit (StripeCustomer × DB) :=
  match db.customers.find? (fun c => c.user_id == user_id) with
  | some existing =>
    let r : StripeCustomer := { existing with
      stripe_customer_id := stripe_customer_id,
      email := if truthyStr email then email else existing.email,
      updated_at := now }
    if (db.customers ++ conc.customers).any
        (fun c => c.stripe_customer_id == stripe_customer_id && c.user_id != existing.user_id)
    then .error ()
    else .ok (r, { db with
      customers := updateFirst (fun c => c.user_id == user_id) r db.customers })
  | none =>
    match db.customers.find? (fun c => c.stripe_customer_id == stripe_customer_id) with
    | some by_cus =>
      let r : StripeCustomer := { by_cus with
        user_id := user_id,
        email := if truthyStr email then email else by_cus.email,
        updated_at := now }
      if (db.customers ++ conc.customers).any
          (fun c => c.user_id == user_id && c.stripe_customer_id != by_cus.stripe_customer_id)
      then .error ()
      else .ok (r, { db with
        customers := updateFirst (fun c => c.stripe_customer_id == stripe_customer_id) r db.customers })
    | none =>
      let row : StripeCustomer := {
        user_id := user_id, stripe_customer_id := stripe_customer_id,
        email := email, created_at := now, updated_at := now }
      if (db.customers ++ conc.customers).any
          (fun c => c.user_id == user_id || c.stripe_customer_id == stripe_customer_id)
      then .error ()
      else .ok (row, { db with customers := db.customers ++ [row] })

/-- `_upsert_subscription` (lines 226-278): find by `stripe_subscription_id`;
if found, overwrite every mutable field, `transaction_id` only when truthy;
else insert (with `transaction_id or None`).  No try/except: an
`IntegrityError` raised by the COMMIT propagates, modelled as `.error ()`.
The COMMIT raises both for a `None` `price_id` (the column is NOT NULL,
models.py line 137 — the call sites can really pass `None`, e.g.
`items[0].get("price", {}).get("id")`) and, in the insert branch, for a
concurrent insert of the same subscription id. -/
def upsert_subscription (db : DB) (conc : Conc) (user_id : Int)
    (stripe_subscription_id : String) (stripe_customer_id : String)
    (price_id : Option String) (status_ : String) (cancel_at_period_end : Bool)
    (current_period_start current_period_end canceled_at : Option Nat)
    (transaction_id : Option String) (now : Nat) :
    Except Unit (StripeSubscription × DB) :=
  match db.subscriptions.find? (fun s => s.stripe_subscription_id == stripe_subscription_id) with
  | some sub =>
    match price_id with
    | none => .error ()
    | some pid =>
      let r : StripeSubscription := { sub with
        user_id := user_id,
        stripe_customer_id := stripe_customer_id,
        price_id := pid,
        status := status_,
        cancel_at_period_end := cancel_at_period_end,
        current_period_start := current_period_start,
        current_period_end := current_period_end,
        canceled_at := canceled_at,
        transaction_id := if truthyStr transaction_id then transaction_id else sub.transaction_id,
        updated_at := now }
      .ok (r, { db with
        subscriptions := updateFirst
          (fun s => s.stripe_subscription_id == stripe_subscription_id) r db.subscriptions })
  | none =>
    match price_id with
    | none => .error ()
    | some pid =>
      let row : StripeSubscription := {
        user_id := user_id,
        stripe_subscription_id := stripe_subscription_id,
        stripe_customer_id := stripe_customer_id,
        price_id := pid,
        status := status_,
        cancel_at_period_end := cancel_at_period_end,
        current_period_start := current_period_start,
        current_period_end := current_period_end,
        canceled_at := canceled_at,
        transaction_id := if truthyStr transaction_id then transaction_id else none,
        created_at := now, updated_at := now }
      if (db.subscriptions ++ conc.subscriptions).any
          (fun s => s.stripe_subscription_id == stripe_subscription_id)
      then .error ()
      else .ok (row, { db with subscriptions := db.subscriptions ++ [row] })

/-- `_insert_invoice` (lines 281-314): find by `stripe_invoice_id`; if present
return the existing row unchanged; else INSERT and COMMIT.  A NULL invoice or
customer id violates NOT NULL, and a concurrent insert of the same invoice id
violates uniqueness; either `IntegrityError` propagates (no try/except),
modelled as `.error ()`.  A NULL id matches no existing row in the SELECT. -/
def insert_invoice (db : DB) (conc : Conc) (stripe_invoice_id : Option String)
    (stripe_customer_id : Option String) (stripe_subscription_id : Option String)
    (amount_paid amount_due : Option Int) (currency status_ : Option String)
    (paid_at : Option Nat) (raw_json : EventObj) (now : Nat) :
    Except Unit (StripeInvoice × DB) :=
  match stripe_invoice_id with
  | none => .error ()
  | some iid =>
    match db.invoices.find? (fun i => i.stripe_invoice_id == iid) with
    | some existing => .ok (existing, db)
    | none =>
      match stripe_customer_id with
      | none => .error ()
      | some cid =>
        if conc.invoices.any (fun i => i.stripe_invoice_id == iid) then .error ()
        else
          let row : StripeInvoice := {
            stripe_invoice_id := iid, stripe_customer_id := cid,
            stripe_subscription_id := stripe_subscription_id,
            amount_paid := amount_paid, amount_due := amount_due,
            currency := currency, status := status_, paid_at := paid_at,
            raw_json := raw_json, created_at := now }
          .ok (row, { db with invoices := db.invoices ++ [row] })

/-- The second location consulted by `_extract_subscription_id_from_invoice`:
`(obj.get("parent") or {}).get("subscription_details", {}).get("subscription")`
(computed inline at line 81). -/
def invoice_parent_subscription (obj : EventObj) : Option String :=
  match obj.parent with
  | none => none
  | some p =>
    match p.subscription_details with
    | none => none
    | some sd => sd.subscription

/-- One line item's nested subscription id,
`(line.get("parent") or {}).get("subscription_item_details") or {}).get("subscription")`
(computed inline at lines 87-88). -/
def invoice_line_first_subscription (l0 : InvoiceLine) : Option String :=
  match l0.parent with
  | none => none
  | some lp =>
    match lp.subscription_item_details with
    | none => none
    | some sid => sid.subscription

/-- The third location of the chain: the first entry of `lines.data`, when
there is one. -/
def invoice_line_subscription (obj : EventObj) : Option String :=
  match obj.lines with
  | [] => none
  | l0 :: _ => invoice_line_first_subscription l0

/-- `_extract_subscription_id_from_invoice` (lines 70-92): the top-level
`subscription` field, else `parent.subscription_details.subscription`, else
the first line item's `parent.subscription_item_details.subscription`
(the inline nested lookups are the named helpers above). -/
def extract_subscription_id_from_invoice (obj : EventObj) : Option String :=
  if truthyStr obj.subscription then obj.subscription
  else
    let parent_sub : Option String := invoice_parent_subscription obj
    if truthyStr parent_sub then parent_sub
    else
      match obj.lines with
      | [] => none
      | l0 :: _ =>
        let sub2 : Option String := invoice_line_first_subscription l0
        if truthyStr sub2 then sub2 else none

-- -----------------------------
-- Webhook (router.py lines 320-539)
-- -----------------------------

/-- The body every acknowledging branch of the webhook returns. -/
structure Ack where
  status : String
deriving Repr, DecidableEq

/-- The benign acknowledgment, `{"status": "ok"}`. -/
def ack_ok : Ack := { status := "ok" }

/-- An `HTTPException` (or an uncaught exception turned into a 500 by the
framework) surfaced to the HTTP client. -/
structure HttpError where
  status_code : Nat
  detail : String
deriving Repr, DecidableEq

/-- Outcome of `stripe.Webhook.construct_event` (lines 339-349). -/
inductive VerifyResult where
  | ok (e : Event)
  | sigError
  | valueError
deriving Repr, DecidableEq

/-- Outcome of one event-processing attempt (the body of the try at lines
380-535): either a branch returned its acknowledgment, or an exception
escaped to the handler at line 537; either way the database mutations
committed so far persist. -/
inductive ProcResult where
  | done (db : DB)
  | raised (db : DB)
deriving Repr, DecidableEq

/-- The state after a processing attempt. -/
def ProcResult.db : ProcResult → DB
  | .done d => d
  | .raised d => d

/-- `user_id` resolution via the Customer table (lines 435-439 and 505-509):
only attempted for a truthy customer id. -/
def user_id_by_customer (db : DB) (customerId : Option String) : Option Int :=
  if truthyStr customerId then
    match db.customers.find? (fun c => c.stripe_customer_id == customerId.getD "") with
    | some cust => some cust.user_id
    | none => none
  else none

/-- The try blocks at lines 402-421 and 458-476: retrieve the subscription
from the processor and upsert it; any exception (failed retrieve, or an
`IntegrityError` out of the upsert) is caught by the inner except, leaving
the state as it was. -/
def retrieve_and_upsert_subscription (retrieve : String → Option SubDetail)
    (conc : Conc) (now : Nat) (db : DB) (uid : Int) (subscriptionId : String)
    (transaction_id : Option String) : ProcResult :=
  match retrieve subscriptionId with
  | none => .done db
  | some sub =>
    match upsert_subscription db conc uid sub.id sub.customer
        (price_id_from_items sub.items) (sub.status.getD "unknown")
        sub.cancel_at_period_end (to_dt_from_unix sub.current_period_start)
        (to_dt_from_unix sub.current_period_end) (to_dt_from_unix sub.canceled_at)
        transaction_id now with
    | .error _ => .done db
    | .ok (_, db2) => .done db2

/-- Branch A, `checkout.session.completed` (lines 386-423).  The customer
upsert at line 398 is not inside a try: an `IntegrityError` there escapes to
the event-level handler. -/
def processCheckoutCompleted (retrieve : String → Option SubDetail) (conc : Conc)
    (now : Nat) (db : DB) (obj : EventObj) : ProcResult :=
  let userId := pyOrInt (safe_int obj.metadata_user_id) (safe_int obj.client_reference_id)
  if !truthyInt userId then .done db
  else
    let uid := userId.getD 0
    let transaction_id := pyStrip (obj.metadata_transaction_id.getD "")
    let email := pyOrStr obj.customer_details_email obj.customer_email
    if truthyStr obj.customer then
      match upsert_customer db conc uid (obj.customer.getD "") email now with
      | .error _ => .raised db
      | .ok (_, db1) =>
        if truthyStr obj.subscription then
          retrieve_and_upsert_subscription retrieve conc now db1 uid
            (obj.subscription.getD "")
            (if transaction_id == "" then none else some transaction_id)
        else .done db1
    else .done db

/-- Branch B, `invoice.payment_succeeded` (lines 428-478).  The invoice
insert at line 442 is not inside a try: an `IntegrityError` there escapes to
the event-level handler.  The defensive subscription resync afterwards is
inside its own try. -/
def processInvoicePaymentSucceeded (retrieve : String → Option SubDetail)
    (conc : Conc) (now : Nat) (db : DB) (obj : EventObj) : ProcResult :=
  let subscriptionId := extract_subscription_id_from_invoice obj
  let userId := user_id_by_customer db obj.customer
  match insert_invoice db conc obj.id obj.customer subscriptionId
      obj.amount_paid obj.amount_due obj.currency obj.status
      (to_dt_from_unix obj.status_transitions_paid_at) obj now with
  | .error _ => .raised db
  | .ok (_, db1) =>
    if truthyInt userId && truthyStr subscriptionId then
      retrieve_and_upsert_subscription retrieve conc now db1 (userId.getD 0)
        (subscriptionId.getD "") none
    else .done db1

/-- Branch B, `invoice.payment_failed` (lines 480-496): insert the invoice
with `paid_at = None`; an `IntegrityError` escapes to the event-level
handler. -/
def processInvoicePaymentFailed (conc : Conc) (now : Nat) (db : DB)
    (obj : EventObj) : ProcResult :=
  let subscriptionId := extract_subscription_id_from_invoice obj
  match insert_invoice db conc obj.id obj.customer subscriptionId
      obj.amount_paid obj.amount_due obj.currency obj.status none obj now with
  | .error _ => .raised db
  | .ok (_, db1) => .done db1

/-- Branch C, `customer.subscription.updated` / `customer.subscription.deleted`
(lines 501-532): resolve the user through the Customer table; a deleted event
forces status `canceled`; the upsert at line 519 is not inside a try. -/
def processSubscriptionLifecycle (conc : Conc) (now : Nat) (db : DB)
    (obj : EventObj) (deleted : Bool) : ProcResult :=
  let userId := user_id_by_customer db obj.customer
  if truthyInt userId && truthyStr obj.id then
    let price_id := price_id_from_items obj.items
    let status_ := if deleted then "canceled" else obj.status.getD "unknown"
    match upsert_subscription db conc (userId.getD 0) (obj.id.getD "")
        (obj.customer.getD "") price_id status_ obj.cancel_at_period_end
        (to_dt_from_unix obj.current_period_start)
        (to_dt_from_unix obj.current_period_end)
        (to_dt_from_unix obj.canceled_at) none now with
    | .error _ => .raised db
    | .ok (_, db1) => .done db1
  else .done db

/-- The event-interpretation try block (lines 380-535): read `data.object`
(a missing key raises), dispatch on the event type, ignore unrecognized
types. -/
def processEvent (retrieve : String → Option SubDetail) (conc : Conc)
    (now : Nat) (db : DB) (e : Event) : ProcResult :=
  match e.data_object with
  | none => .raised db
  | some obj =>
    if e.type == some "checkout.session.completed" then
      processCheckoutCompleted retrieve conc now db obj
    else if e.type == some "invoice.payment_succeeded" then
      processInvoicePaymentSucceeded retrieve conc now db obj
    else if e.type == some "invoice.payment_failed" then
      processInvoicePaymentFailed conc now db obj
    else if e.type == some "customer.subscription.updated"
        || e.type == some "customer.subscription.deleted" then
      processSubscriptionLifecycle conc now db obj
        (e.type == some "customer.subscription.deleted")
    else .done db

/-- `stripe_webhook` (lines 320-539).  `secretKey` and `webhookSecret` are
the `STRIPE_SECRET_KEY` / `STRIPE_WEBHOOK_SECRET` values as returned by
`_get_env` (which already strips whitespace, so the blank test is equality
with the empty string); `sigHeader` is the `stripe-signature` header;
`verify` is the outcome of signature verification, consulted once the secret
and header are present.  `_init_stripe` raises HTTP 500 when the secret key
is blank; every later branch answers `{"status": "ok"}`, with an exception
during interpretation of a freshly ledgered event caught at line 537. -/
def stripe_webhook (secretKey webhookSecret : String) (sigHeader : Option String)
    (verify : VerifyResult) (retrieve : String → Option SubDetail) (conc : Conc)
    (now : Nat) (db : DB) : Except HttpError (Ack × DB) :=
  if secretKey == "" then .error { status_code := 500, detail := "Falta STRIPE_SECRET_KEY." }
  else if webhookSecret == "" then .ok (ack_ok, db)
  else
    match sigHeader with
    | none => .ok (ack_ok, db)
    | some _ =>
      match verify with
      | .sigError => .ok (ack_ok, db)
      | .valueError => .ok (ack_ok, db)
      | .ok e =>
        match insert_event_idempotent db e.id e.type e.created e now with
        | (false, db1) => .ok (ack_ok, db1)
        | (true, db1) =>
          match processEvent retrieve conc now db1 e with
          | .done db2 => .ok (ack_ok, db2)
          | .raised db2 => .ok (ack_ok, db2)

-- -----------------------------
-- Confirm endpoint (router.py lines 541-679)
-- -----------------------------

/-- The checkout session object returned by `stripe.checkout.Session.retrieve`,
restricted to the fields `confirm_payment` reads. -/
structure SessionDetail where
  status : Option String := none
  payment_status : Option String := none
  subscription : Option String := none
  customer : Option String := none
  metadata_transaction_id : Option String := none
  metadata_user_id : Option String := none
  client_reference_id : Option String := none
deriving Repr, DecidableEq

/-- `ConfirmRequest` (lines 541-543). -/
structure ConfirmRequest where
  session_id : String
  transaction_id : Option String := none
deriving Repr, DecidableEq

/-- `ConfirmResponse` (lines 545-550). -/
structure ConfirmResponse where
  ok : Bool
  status : String
  subscription_id : Option String := none
  customer_id : Option String := none
  synced : Bool := false
deriving Repr, DecidableEq

/-- `confirm_payment` (lines 566-679).  `secretKey` is the `_get_env` output
for `STRIPE_SECRET_KEY` (already stripped); `retrieveSession` and `retrieveSub`
stand for the processor calls (`none` = the call raised); an uncaught
`IntegrityError` out of the final upsert surfaces as the framework's 500. -/
def confirm_payment (secretKey : String)
    (retrieveSession : String → Option SessionDetail)
    (retrieveSub : String → Option SubDetail) (conc : Conc) (now : Nat)
    (payload : ConfirmRequest) (db : DB) : Except HttpError (ConfirmResponse × DB) :=
  if secretKey == "" then .error { status_code := 500, detail := "Falta STRIPE_SECRET_KEY." }
  else
    match retrieveSession payload.session_id with
    | none => .error { status_code := 400, detail := "session_id inválido" }
    | some s =>
      let meta_tx := pyStrip (s.metadata_transaction_id.getD "")
      if truthyStr payload.transaction_id && meta_tx != ""
          && pyStrip (payload.transaction_id.getD "") != meta_tx then
        .error { status_code := 400, detail := "transaction_id no coincide" }
      else
        let sub_id := s.subscription
        let cus_id := s.customer
        if !(s.status == some "complete"
            && (s.payment_status == some "paid" || s.payment_status == some "no_payment_required")) then
          .ok ({ ok := false, status := "not_paid", subscription_id := sub_id,
                 customer_id := cus_id, synced := false }, db)
        else if !truthyStr sub_id then
          .ok ({ ok := false, status := "pending", subscription_id := none,
                 customer_id := cus_id, synced := false }, db)
        else
          match db.subscriptions.find? (fun r => r.stripe_subscription_id == sub_id.getD "") with
          | some _ =>
            .ok ({ ok := true, status := "active", subscription_id := sub_id,
                   customer_id := cus_id, synced := false }, db)
          | none =>
            match retrieveSub (sub_id.getD "") with
            | none =>
              .ok ({ ok := false, status := "pending_webhook", subscription_id := sub_id,
                     customer_id := cus_id, synced := false }, db)
            | some sub =>
              let user_id := pyOrInt (safe_int s.metadata_user_id) (safe_int s.client_reference_id)
              if !truthyInt user_id then
                .ok ({ ok := false, status := "pending_webhook", subscription_id := sub_id,
                       customer_id := cus_id, synced := false }, db)
              else
                let price_id : Option String :=
                  match sub.items with
                  | [] => none
                  | it :: _ =>
                    match it.price with
                    | none => none
                    | some p => p.id
                if !truthyStr price_id then
                  .ok ({ ok := false, status := "pending_webhook", subscription_id := sub_id,
                         customer_id := cus_id, synced := false }, db)
                else
                  match upsert_subscription db conc (user_id.getD 0) sub.id sub.customer
                      price_id (sub.status.getD "unknown") sub.cancel_at_period_end
                      (to_dt_from_unix sub.current_period_start)
                      (to_dt_from_unix sub.current_period_end)
                      (to_dt_from_unix sub.canceled_at)
                      (if meta_tx == "" then none else some meta_tx) now with
                  | .error _ => .error { status_code := 500, detail := "Internal Server Error" }
                  | .ok (_, db2) =>
                    .ok ({ ok := true, status := "active", subscription_id := sub_id,
                           customer_id := cus_id, synced := true }, db2)

-- -----------------------------
-- Frame lemmas (shared)
-- -----------------------------

/-- A successful customer upsert touches only the customer table. -/
theorem upsert_customer_ok_frame {db : DB} {conc : Conc} {uid : Int}
    {cus : String} {email : Option String} {now : Nat} {r : StripeCustomer} {db2 : DB}
    (h : upsert_customer db conc uid cus email now = .ok (r, db2)) :
    db2.events = db.events ∧ db2.subscriptions = db.subscriptions ∧ db2.invoices = db.invoices := by
  unfold upsert_customer at h
  repeat' split at h
  all_goals
    first
    | (simp only [Except.ok.injEq, Prod.mk.injEq] at h
       rcases h with ⟨-, rfl⟩
       exact ⟨rfl, rfl, rfl⟩)
    | exact absurd h (by simp)

/-- A successful subscription upsert touches only the subscription table. -/
theorem upsert_subscription_ok_frame {db : DB} {conc : Conc} {uid : Int}
    {subId cusId : String} {priceId : Option String} {st : String} {cape : Bool}
    {cps cpe ca : Option Nat} {tx : Option String} {now : Nat}
    {r : StripeSubscription} {db2 : DB}
    (h : upsert_subscription db conc uid subId cusId priceId st cape cps cpe ca tx now
        = .ok (r, db2)) :
    db2.events = db.events ∧ db2.customers = db.customers ∧ db2.invoices = db.invoices := by
  unfold upsert_subscription at h
  repeat' split at h
  all_goals
    first
    | (simp only [Except.ok.injEq, Prod.mk.injEq] at h
       rcases h with ⟨-, rfl⟩
       exact ⟨rfl, rfl, rfl⟩)
    | exact absurd h (by simp)

/-- A successful invoice insert touches only the invoice table. -/
theorem insert_invoice_ok_frame {db : DB} {conc : Conc}
    {iid cid sid : Option String} {ap ad : Option Int} {cur st : Option String}
    {pa : Option Nat} {raw : EventObj} {now : Nat} {r : StripeInvoice} {db2 : DB}
    (h : insert_invoice db conc iid cid sid ap ad cur st pa raw now = .ok (r, db2)) :
    db2.events = db.events ∧ db2.customers = db.customers ∧ db2.subscriptions = db.subscriptions := by
  unfold insert_invoice at h
  repeat' split at h
  all_goals
    first
    | (simp only [Except.ok.injEq, Prod.mk.injEq] at h
       rcases h with ⟨-, rfl⟩
       exact ⟨rfl, rfl, rfl⟩)
    | exact absurd h (by simp)

/-- The guarded retrieve-and-upsert block always acknowledges, and leaves
every table except subscriptions unchanged. -/
theorem retrieve_and_upsert_subscription_spec (retrieve : String → Option SubDetail)
    (conc : Conc) (now : Nat) (db : DB) (uid : Int) (sid : String)
    (tx : Option String) :
    ∃ d, retrieve_and_upsert_subscription retrieve conc now db uid sid tx = .done d ∧
      d.events = db.events ∧ d.customers = db.customers ∧ d.invoices = db.invoices := by
  unfold retrieve_and_upsert_subscription
  split
  · exact ⟨db, rfl, rfl, rfl, rfl⟩
  · split
    · exact ⟨db, rfl, rfl, rfl, rfl⟩
    · rename_i r db2 hu
      obtain ⟨h1, h2, h3⟩ := upsert_subscription_ok_frame hu
      exact ⟨db2, rfl, h1, h2, h3⟩

/-- Ledger-shaped corollary of the previous lemma. -/
theorem retrieve_and_upsert_subscription_events (retrieve : String → Option SubDetail)
    (conc : Conc) (now : Nat) (db : DB) (uid : Int) (sid : String)
    (tx : Option String) :
    (retrieve_and_upsert_subscription retrieve conc now db uid sid tx).db.events
      = db.events := by
  obtain ⟨d, hd, hde, -, -⟩ :=
    retrieve_and_upsert_subscription_spec retrieve conc now db uid sid tx
  rw [hd]
  exact hde

/-- The checkout branch never writes the event ledger. -/
theorem processCheckoutCompleted_events (retrieve : String → Option SubDetail)
    (conc : Conc) (now : Nat) (db : DB) (obj : EventObj) :
    (processCheckoutCompleted retrieve conc now db obj).db.events = db.events := by
  unfold processCheckoutCompleted
  dsimp only
  split
  · rfl
  · split
    · split
      · rfl
      · rename_i r db1 hu
        split
        · exact (retrieve_and_upsert_subscription_events _ _ _ _ _ _ _).trans
            (upsert_customer_ok_frame hu).1
        · exact (upsert_customer_ok_frame hu).1
    · rfl

/-- The invoice-paid branch never writes the event ledger. -/
theorem processInvoicePaymentSucceeded_events (retrieve : String → Option SubDetail)
    (conc : Conc) (now : Nat) (db : DB) (obj : EventObj) :
    (processInvoicePaymentSucceeded retrieve conc now db obj).db.events = db.events := by
  unfold processInvoicePaymentSucceeded
  dsimp only
  split
  · rfl
  · rename_i r db1 hi
    split
    · exact (retrieve_and_upsert_subscription_events _ _ _ _ _ _ _).trans
        (insert_invoice_ok_frame hi).1
    · exact (insert_invoice_ok_frame hi).1

/-- The invoice-failed branch never writes the event ledger. -/
theorem processInvoicePaymentFailed_events (conc : Conc) (now : Nat) (db : DB)
    (obj : EventObj) :
    (processInvoicePaymentFailed conc now db obj).db.events = db.events := by
  unfold processInvoicePaymentFailed
  dsimp only
  split
  · rfl
  · rename_i r db1 hi
    exact (insert_invoice_ok_frame hi).1

/-- The lifecycle branch never writes the event ledger. -/
theorem processSubscriptionLifecycle_events (conc : Conc) (now : Nat) (db : DB)
    (obj : EventObj) (del : Bool) :
    (processSubscriptionLifecycle conc now db obj del).db.events = db.events := by
  unfold processSubscriptionLifecycle
  dsimp only
  split
  · split
    · rfl
    · rename_i r db1 hu
      exact (upsert_subscription_ok_frame hu).1
  · rfl

/-- Event interpretation never writes the event ledger. -/
theorem processEvent_preserves_events (retrieve : String → Option SubDetail)
    (conc : Conc) (now : Nat) (db : DB) (e : Event) :
    (processEvent retrieve conc now db e).db.events = db.events := by
  unfold processEvent
  cases e.data_object with
  | none => rfl
  | some obj =>
    dsimp only
    split
    · exact processCheckoutCompleted_events _ _ _ _ _
    · split
      · exact processInvoicePaymentSucceeded_events _ _ _ _ _
      · split
        · exact processInvoicePaymentFailed_events _ _ _ _
        · split
          · exact processSubscriptionLifecycle_events _ _ _ _ _
          · rfl

/-- After any outcome of the ledger insert for a present id and type, the
ledger contains a row with that event id. -/
theorem insert_event_idempotent_mem {db : DB} {eid ty : String} {c : Option Nat}
    {raw : Event} {now : Nat} {b : Bool} {db1 : DB}
    (h : insert_event_idempotent db (some eid) (some ty) c raw now = (b, db1)) :
    db1.events.any (fun r => r.stripe_event_id == eid) = true := by
  unfold insert_event_idempotent at h
  split at h
  · rename_i eid2 ty2 heq1 heq2
    injection heq1 with heq1
    injection heq2 with heq2
    subst heq1
    subst heq2
    split at h
    · rename_i hany
      injection h with hb hdb
      subst hdb
      exact hany
    · injection h with hb hdb
      subst hdb
      simp
  · rename_i hx
    exact (hx eid ty rfl rfl).elim

-- -----------------------------
-- Claims
-- -----------------------------

/-- C1: for every inbound webhook event whose event id already has a
ProcessedEvent (StripeEvent) row, the handler inserts no second row, runs no
customer/subscription/invoice upsert, and returns the success acknowledgment
(the state is returned unchanged); hence delivering the same event id twice
yields exactly one ProcessedEvent row and entity state identical to
delivering it once (the second delivery is a no-op on the state produced by
the first). -/
theorem c1_duplicate_delivery_idempotent
    (secretKey webhookSecret sig : String) (retrieve : String → Option SubDetail)
    (conc : Conc) (now : Nat) (e : Event) (eid : String)
    (hsk : secretKey ≠ "") (hws : webhookSecret ≠ "")
    (hid : e.id = some eid) :
    (∀ db : DB, db.events.any (fun r => r.stripe_event_id == eid) = true →
      stripe_webhook secretKey webhookSecret (some sig) (.ok e) retrieve conc now db
        = .ok (ack_ok, db))
    ∧ (∀ db db1 : DB,
      stripe_webhook secretKey webhookSecret (some sig) (.ok e) retrieve conc now db
        = .ok (ack_ok, db1) →
      stripe_webhook secretKey webhookSecret (some sig) (.ok e) retrieve conc now db1
        = .ok (ack_ok, db1)) := by
  have hsk2 : ¬((secretKey == "") = true) := by simp [hsk]
  have hws2 : ¬((webhookSecret == "") = true) := by simp [hws]
  have hred : ∀ db : DB,
      stripe_webhook secretKey webhookSecret (some sig) (.ok e) retrieve conc now db
        = match insert_event_idempotent db e.id e.type e.created e now with
          | (false, db1) => .ok (ack_ok, db1)
          | (true, db1) =>
            match processEvent retrieve conc now db1 e with
            | .done db2 => .ok (ack_ok, db2)
            | .raised db2 => .ok (ack_ok, db2) := by
    intro db
    unfold stripe_webhook
    rw [if_neg hsk2, if_neg hws2]
  constructor
  · intro db hany
    rw [hred db, hid]
    cases hty : e.type with
    | none => simp [insert_event_idempotent]
    | some ty =>
      simp [insert_event_idempotent, hany]
  · intro db db1 h
    rw [hred db, hid] at h
    rw [hred db1, hid]
    cases hty : e.type with
    | none => simp [insert_event_idempotent]
    | some ty =>
      rw [hty] at h
      cases hins : insert_event_idempotent db (some eid) (some ty) e.created e now with
      | mk b dbi =>
        rw [hins] at h
        have hmem := insert_event_idempotent_mem hins
        cases b with
        | false =>
          simp only [Except.ok.injEq, Prod.mk.injEq] at h
          obtain ⟨-, rfl⟩ := h
          simp [insert_event_idempotent, hmem]
        | true =>
          dsimp only at h
          cases hpe : processEvent retrieve conc now dbi e with
          | done d2 =>
            rw [hpe] at h
            simp only [Except.ok.injEq, Prod.mk.injEq] at h
            obtain ⟨-, rfl⟩ := h
            have he : d2.events = dbi.events := by
              have hq := processEvent_preserves_events retrieve conc now dbi e
              rw [hpe] at hq
              exact hq
            simp [insert_event_idempotent, he, hmem]
          | raised d2 =>
            rw [hpe] at h
            simp only [Except.ok.injEq, Prod.mk.injEq] at h
            obtain ⟨-, rfl⟩ := h
            have he : d2.events = dbi.events := by
              have hq := processEvent_preserves_events retrieve conc now dbi e
              rw [hpe] at hq
              exact hq
            simp [insert_event_idempotent, he, hmem]

/-- Witness for C1 at a concrete duplicate delivery. -/
theorem c1_witness :
    stripe_webhook "sk" "whsec" (some "sig")
      (.ok { id := some "evt_1", type := some "t" }) (fun _ => none) noConc 0
      { events := [{ stripe_event_id := "evt_1", type := "t", received_at := 0, raw_json := {} }] }
      = .ok (ack_ok,
        { events := [{ stripe_event_id := "evt_1", type := "t", received_at := 0, raw_json := {} }] }) :=
  (c1_duplicate_delivery_idempotent "sk" "whsec" "sig" (fun _ => none) noConc 0
      { id := some "evt_1", type := some "t" } "evt_1"
      (by decide) (by decide) rfl).1
    { events := [{ stripe_event_id := "evt_1", type := "t", received_at := 0, raw_json := {} }] }
    (by decide)

/-- C2 counterexample: a webhook delivery arriving while the webhook secret
is unconfigured (and the processor API key is also unconfigured) is answered
with an HTTP 500 configuration error raised by init at line 322, not with
the benign acknowledgment — so the claim does not hold for every inbound
request. -/
theorem c2_counterexample :
    stripe_webhook "" "" (some "sig") (.ok {}) (fun _ => none) noConc 0 {}
      = .error { status_code := 500, detail := "Falta STRIPE_SECRET_KEY." } := rfl

/-- C2 (amended): provided the processor API key (`STRIPE_SECRET_KEY`) is
configured, every inbound webhook request is answered with the benign success
acknowledgment, whatever the webhook-secret configuration, signature header,
verification outcome, payload shape, or exception during interpretation of
an already-ledgered event. -/
theorem c2_always_acknowledges (secretKey webhookSecret : String)
    (sigHeader : Option String) (verify : VerifyResult)
    (retrieve : String → Option SubDetail) (conc : Conc) (now : Nat) (db : DB)
    (hsk : secretKey ≠ "") :
    ∃ db2, stripe_webhook secretKey webhookSecret sigHeader verify retrieve conc now db
      = .ok (ack_ok, db2) := by
  have hsk2 : ¬((secretKey == "") = true) := by simp [hsk]
  unfold stripe_webhook
  rw [if_neg hsk2]
  split
  · exact ⟨db, rfl⟩
  · cases sigHeader with
    | none => exact ⟨db, rfl⟩
    | some s =>
      cases verify with
      | sigError => exact ⟨db, rfl⟩
      | valueError => exact ⟨db, rfl⟩
      | ok e =>
        cases hins : insert_event_idempotent db e.id e.type e.created e now with
        | mk b db1 =>
          cases b with
          | false => exact ⟨db1, by dsimp only; rw [hins]⟩
          | true =>
            cases hpe : processEvent retrieve conc now db1 e with
            | done db2 => exact ⟨db2, by dsimp only; rw [hins]; dsimp only; rw [hpe]⟩
            | raised db2 => exact ⟨db2, by dsimp only; rw [hins]; dsimp only; rw [hpe]⟩

/-- Witness for the amended C2 at a concrete request. -/
theorem c2_witness :
    ∃ db2, stripe_webhook "sk" "" none (.ok {}) (fun _ => none) noConc 0 {}
      = .ok (ack_ok, db2) :=
  c2_always_acknowledges "sk" "" none (.ok {}) (fun _ => none) noConc 0 {} (by decide)

/-- C5: for every invoice-insert call whose invoice id already has a row, the
existing row is returned and the database is unchanged — every stored field
keeps its first-recorded value, whatever payload the second call carries. -/
theorem c5_invoice_rows_immutable (db : DB) (conc : Conc) (iid : String)
    (row : StripeInvoice) (cid sid : Option String) (ap ad : Option Int)
    (cur st : Option String) (pa : Option Nat) (raw : EventObj) (now : Nat)
    (hfind : db.invoices.find? (fun i => i.stripe_invoice_id == iid) = some row) :
    insert_invoice db conc (some iid) cid sid ap ad cur st pa raw now
      = .ok (row, db) := by
  unfold insert_invoice
  dsimp only
  rw [hfind]

/-- Witness for C5: re-delivering invoice in_1 with a different payload
returns the first-recorded row and leaves the table unchanged. -/
theorem c5_witness :
    insert_invoice
      { invoices := [{ stripe_invoice_id := "in_1", stripe_customer_id := "cus_1",
                       amount_paid := some 100, currency := some "usd", raw_json := {} }] }
      noConc (some "in_1") (some "cus_other") (some "sub_9") (some 999) (some 999)
      (some "eur") (some "void") (some 123) {} 77
      = .ok ({ stripe_invoice_id := "in_1", stripe_customer_id := "cus_1",
               amount_paid := some 100, currency := some "usd", raw_json := {} },
             { invoices := [{ stripe_invoice_id := "in_1", stripe_customer_id := "cus_1",
                              amount_paid := some 100, currency := some "usd", raw_json := {} }] }) :=
  c5_invoice_rows_immutable _ _ _ _ _ _ _ _ _ _ _ _ _ (by decide)

/-- C8 counterexample: an upsert that finds an existing row but is supplied
no price id — as really happens when the retrieved subscription's first item
carries no price id (router lines 404-405, 460-461, 512-513) — raises the
NOT NULL violation on `price_id` (models.py line 137) instead of overwriting
the fields. -/
theorem c8_counterexample :
    upsert_subscription
      { subscriptions := [{ user_id := 1, stripe_subscription_id := "sub_1", stripe_customer_id := "cus_1", price_id := "p", status := "active", transaction_id := some "tx_keep" }] }
      noConc 2 "sub_1" "cus_2" none "past_due" true (some 10) (some 20)
      (some 30) (some "") 99 = .error () := rfl

/-- C8 (amended): for every subscription upsert that finds an existing row
for the given processor subscription id and is supplied a price id (possibly
empty), all mutable fields (user id, processor customer id, price id,
status, cancel_at_period_end, period start, period end, canceled_at) are
overwritten with the supplied values, while transaction_id is overwritten
only when a non-empty value is supplied — a None or empty transaction id
leaves the stored transaction_id unchanged — and the row is replaced in
place; a call supplying no price id instead raises the NOT NULL violation
and overwrites nothing. -/
theorem c8_upsert_subscription_overwrites (db : DB) (conc : Conc) (uid : Int)
    (subId cusId : String) (priceId : Option String) (st : String) (cape : Bool)
    (cps cpe ca : Option Nat) (tx : Option String) (now : Nat)
    (sub0 : StripeSubscription)
    (hfind : db.subscriptions.find? (fun s => s.stripe_subscription_id == subId)
      = some sub0) :
    (∀ pid, priceId = some pid →
      ∃ r db2,
        upsert_subscription db conc uid subId cusId priceId st cape cps cpe ca tx now
          = .ok (r, db2)
        ∧ r.user_id = uid ∧ r.stripe_customer_id = cusId ∧ r.price_id = pid
        ∧ r.status = st ∧ r.cancel_at_period_end = cape
        ∧ r.current_period_start = cps ∧ r.current_period_end = cpe
        ∧ r.canceled_at = ca
        ∧ r.transaction_id = (if truthyStr tx then tx else sub0.transaction_id)
        ∧ r.stripe_subscription_id = sub0.stripe_subscription_id
        ∧ db2 = { db with subscriptions := updateFirst (fun s => s.stripe_subscription_id == subId) r db.subscriptions })
    ∧ (priceId = none →
      upsert_subscription db conc uid subId cusId priceId st cape cps cpe ca tx now
        = .error ()) := by
  constructor
  · intro pid hpid
    subst hpid
    unfold upsert_subscription
    rw [hfind]
    exact ⟨_, _, rfl, rfl, rfl, rfl, rfl, rfl, rfl, rfl, rfl, rfl, rfl, rfl⟩
  · intro hpid
    subst hpid
    unfold upsert_subscription
    rw [hfind]

/-- Witness for the amended C8: updating sub_1 with an empty transaction id
keeps the stored transaction id while every other field is replaced. -/
theorem c8_witness :
    ∃ r db2,
      upsert_subscription
        { subscriptions := [{ user_id := 1, stripe_subscription_id := "sub_1", stripe_customer_id := "cus_1", price_id := "p", status := "active", transaction_id := some "tx_keep" }] }
        noConc 2 "sub_1" "cus_2" (some "price_2") "past_due" true (some 10) (some 20)
        (some 30) (some "") 99
        = .ok (r, db2)
      ∧ r.user_id = 2 ∧ r.stripe_customer_id = "cus_2" ∧ r.price_id = "price_2"
      ∧ r.status = "past_due" ∧ r.cancel_at_period_end = true
      ∧ r.current_period_start = some 10 ∧ r.current_period_end = some 20
      ∧ r.canceled_at = some 30
      ∧ r.transaction_id = (if truthyStr (some "") then some "" else some "tx_keep")
      ∧ r.stripe_subscription_id = "sub_1"
      ∧ db2 = { subscriptions := updateFirst (fun s => s.stripe_subscription_id == "sub_1") r [{ user_id := 1, stripe_subscription_id := "sub_1", stripe_customer_id := "cus_1", price_id := "p", status := "active", transaction_id := some "tx_keep" }] } :=
  (c8_upsert_subscription_overwrites
    { subscriptions := [{ user_id := 1, stripe_subscription_id := "sub_1", stripe_customer_id := "cus_1", price_id := "p", status := "active", transaction_id := some "tx_keep" }] }
    noConc 2 "sub_1" "cus_2" (some "price_2") "past_due" true (some 10) (some 20)
    (some 30) (some "") 99
    { user_id := 1, stripe_subscription_id := "sub_1", stripe_customer_id := "cus_1", price_id := "p", status := "active", transaction_id := some "tx_keep" }
    (by decide)).1 "price_2" rfl

/-- C10: for every customer upsert that finds an existing row — matched by
user id, or else by processor customer id — the stored email is modified only
when a non-empty email is supplied (None or empty leaves it unchanged), while
the other matched-row fields are still updated; stated under the condition
that no other committed row clashes with the updated unique keys (otherwise
the UPDATE commit itself raises). -/
theorem c10_upsert_customer_email_preserved (db : DB) (conc : Conc) (uid : Int)
    (cus : String) (email : Option String) (now : Nat) :
    (∀ c, db.customers.find? (fun x => x.user_id == uid) = some c →
      ((db.customers ++ conc.customers).any (fun x => x.stripe_customer_id == cus && x.user_id != c.user_id)) = false →
      ∃ r db2, upsert_customer db conc uid cus email now = .ok (r, db2)
        ∧ r.email = (if truthyStr email then email else c.email)
        ∧ r.stripe_customer_id = cus ∧ r.user_id = c.user_id ∧ r.updated_at = now
        ∧ db2 = { db with customers := updateFirst (fun x => x.user_id == uid) r db.customers })
    ∧ (∀ c, db.customers.find? (fun x => x.user_id == uid) = none →
      db.customers.find? (fun x => x.stripe_customer_id == cus) = some c →
      ((db.customers ++ conc.customers).any (fun x => x.user_id == uid && x.stripe_customer_id != c.stripe_customer_id)) = false →
      ∃ r db2, upsert_customer db conc uid cus email now = .ok (r, db2)
        ∧ r.email = (if truthyStr email then email else c.email)
        ∧ r.user_id = uid ∧ r.stripe_customer_id = c.stripe_customer_id ∧ r.updated_at = now
        ∧ db2 = { db with customers := updateFirst (fun x => x.stripe_customer_id == cus) r db.customers }) := by
  constructor
  · intro c hfind hnc
    unfold upsert_customer
    rw [hfind]
    dsimp only
    rw [if_neg (by simp [hnc])]
    exact ⟨_, _, rfl, rfl, rfl, rfl, rfl, rfl⟩
  · intro c hmiss hfind hnc
    unfold upsert_customer
    rw [hmiss]
    dsimp only
    rw [hfind]
    dsimp only
    rw [if_neg (by simp [hnc])]
    exact ⟨_, _, rfl, rfl, rfl, rfl, rfl, rfl⟩

/-- Witness for C10: an update matched by user id with email None keeps the
stored email while the processor customer id is still replaced. -/
theorem c10_witness :
    ∃ r db2,
      upsert_customer
        { customers := [{ user_id := 1, stripe_customer_id := "cus_A", email := some "old" }] }
        noConc 1 "cus_B" none 50 = .ok (r, db2)
      ∧ r.email = (if truthyStr none then none else some "old")
      ∧ r.stripe_customer_id = "cus_B" ∧ r.user_id = (1 : Int) ∧ r.updated_at = 50
      ∧ db2 = { customers := updateFirst (fun x => x.user_id == (1 : Int)) r [{ user_id := 1, stripe_customer_id := "cus_A", email := some "old" }] } :=
  (c10_upsert_customer_email_preserved
      { customers := [{ user_id := 1, stripe_customer_id := "cus_A", email := some "old" }] }
      noConc 1 "cus_B" none 50).1
    { user_id := 1, stripe_customer_id := "cus_A", email := some "old" }
    (by decide) (by decide)

/-- C6 is a code bug: only the event-ledger insert treats a unique-constraint
violation as control flow; the three entity writers have no retry, so an
`IntegrityError` raised by their insert-branch COMMIT (here: a concurrent
task committed the same natural key between the SELECT and the COMMIT)
propagates to the caller.  The last conjunct shows the ledger insert, for
contrast, converting the violation into a duplicate result. -/
theorem c6_insert_branch_conflict_propagates :
    upsert_customer {} { customers := [{ user_id := 7, stripe_customer_id := "cus_A" }] }
      7 "cus_A" none 1 = .error ()
    ∧ upsert_subscription {} { subscriptions := [{ user_id := 1, stripe_subscription_id := "sub_1", stripe_customer_id := "cus_1", price_id := "p", status := "active" }] }
      1 "sub_1" "cus_1" (some "p") "active" false none none none none 1 = .error ()
    ∧ insert_invoice {} { invoices := [{ stripe_invoice_id := "in_1", stripe_customer_id := "cus_1", raw_json := {} }] }
      (some "in_1") (some "cus_1") none none none none none none {} 1 = .error ()
    ∧ insert_event_idempotent { events := [{ stripe_event_id := "evt_1", type := "t", received_at := 0, raw_json := {} }] }
      (some "evt_1") (some "t") none {} 1
      = (false, { events := [{ stripe_event_id := "evt_1", type := "t", received_at := 0, raw_json := {} }] }) := by
  exact ⟨rfl, rfl, rfl, by decide⟩

/-- C7: the invoice subscription id is resolved by the fallback chain in
order — top-level `subscription`, else `parent.subscription_details
.subscription`, else the first line item's `parent.subscription_item_details
.subscription`; the first non-empty value wins and `None` results exactly
when no location carries a non-empty value; consequently an invoice-paid
event whose payload carries the id only in the nested line-item structure is
recorded with that id as its `stripe_subscription_id`. -/
theorem c7_subscription_id_fallback_chain :
    (∀ obj : EventObj,
      extract_subscription_id_from_invoice obj
        = (if truthyStr obj.subscription then obj.subscription
           else if truthyStr (invoice_parent_subscription obj) then invoice_parent_subscription obj
           else if truthyStr (invoice_line_subscription obj) then invoice_line_subscription obj
           else none)
      ∧ (extract_subscription_id_from_invoice obj = none
         ↔ truthyStr obj.subscription = false
           ∧ truthyStr (invoice_parent_subscription obj) = false
           ∧ truthyStr (invoice_line_subscription obj) = false))
    ∧ (∀ (retrieve : String → Option SubDetail) (now : Nat) (db : DB) (e : Event)
        (obj : EventObj) (iid cid : String),
        e.type = some "invoice.payment_succeeded" → e.data_object = some obj →
        obj.id = some iid → obj.customer = some cid →
        db.invoices.find? (fun i => i.stripe_invoice_id == iid) = none →
        ∃ db2, processEvent retrieve noConc now db e = .done db2
          ∧ ∃ inv, inv ∈ db2.invoices ∧ inv.stripe_invoice_id = iid
            ∧ inv.stripe_subscription_id = extract_subscription_id_from_invoice obj) := by
  constructor
  · intro obj
    have hchain : extract_subscription_id_from_invoice obj
        = (if truthyStr obj.subscription then obj.subscription
           else if truthyStr (invoice_parent_subscription obj) then invoice_parent_subscription obj
           else if truthyStr (invoice_line_subscription obj) then invoice_line_subscription obj
           else none) := by
      by_cases h1 : truthyStr obj.subscription
      · simp [extract_subscription_id_from_invoice, h1]
      · by_cases h2 : truthyStr (invoice_parent_subscription obj)
        · simp [extract_subscription_id_from_invoice, h1, h2]
        · cases hl : obj.lines with
          | nil => simp [extract_subscription_id_from_invoice, invoice_line_subscription, h1, h2, hl]
          | cons l0 rest =>
            by_cases h3 : truthyStr (invoice_line_first_subscription l0)
            · simp [extract_subscription_id_from_invoice, invoice_line_subscription, h1, h2, hl, h3]
            · simp [extract_subscription_id_from_invoice, invoice_line_subscription, h1, h2, hl, h3]
    refine ⟨hchain, ?_⟩
    rw [hchain]
    by_cases h1 : truthyStr obj.subscription
    · simp [h1]
      intro hs
      rw [hs] at h1
      simp [truthyStr] at h1
    · by_cases h2 : truthyStr (invoice_parent_subscription obj)
      · simp [h1, h2]
        intro hs
        rw [hs] at h2
        simp [truthyStr] at h2
      · by_cases h3 : truthyStr (invoice_line_subscription obj)
        · simp [h1, h2, h3]
          intro hs
          rw [hs] at h3
          simp [truthyStr] at h3
        · simp [h1, h2, h3]
  · intro retrieve now db e obj iid cid hty hobj hid hcid hmiss
    have hins : insert_invoice db noConc obj.id obj.customer
        (extract_subscription_id_from_invoice obj) obj.amount_paid obj.amount_due
        obj.currency obj.status (to_dt_from_unix obj.status_transitions_paid_at) obj now
      = .ok ({ stripe_invoice_id := iid, stripe_customer_id := cid,
               stripe_subscription_id := extract_subscription_id_from_invoice obj,
               amount_paid := obj.amount_paid, amount_due := obj.amount_due,
               currency := obj.currency, status := obj.status,
               paid_at := to_dt_from_unix obj.status_transitions_paid_at,
               raw_json := obj, created_at := now },
             { db with invoices := db.invoices ++
               [{ stripe_invoice_id := iid, stripe_customer_id := cid,
                  stripe_subscription_id := extract_subscription_id_from_invoice obj,
                  amount_paid := obj.amount_paid, amount_due := obj.amount_due,
                  currency := obj.currency, status := obj.status,
                  paid_at := to_dt_from_unix obj.status_transitions_paid_at,
                  raw_json := obj, created_at := now }] }) := by
      rw [hid, hcid]
      unfold insert_invoice
      dsimp only
      rw [hmiss]
      rfl
    unfold processEvent
    rw [hobj, hty]
    dsimp only
    rw [if_neg (by decide), if_pos (by decide)]
    unfold processInvoicePaymentSucceeded
    dsimp only
    rw [hins]
    dsimp only
    split
    · obtain ⟨d, hd, -, -, hinv⟩ := retrieve_and_upsert_subscription_spec retrieve noConc now
        { db with invoices := db.invoices ++ [{ stripe_invoice_id := iid, stripe_customer_id := cid, stripe_subscription_id := extract_subscription_id_from_invoice obj, amount_paid := obj.amount_paid, amount_due := obj.amount_due, currency := obj.currency, status := obj.status, paid_at := to_dt_from_unix obj.status_transitions_paid_at, raw_json := obj, created_at := now }] }
        ((user_id_by_customer db obj.customer).getD 0)
        ((extract_subscription_id_from_invoice obj).getD "") none
      refine ⟨d, hd, { stripe_invoice_id := iid, stripe_customer_id := cid, stripe_subscription_id := extract_subscription_id_from_invoice obj, amount_paid := obj.amount_paid, amount_due := obj.amount_due, currency := obj.currency, status := obj.status, paid_at := to_dt_from_unix obj.status_transitions_paid_at, raw_json := obj, created_at := now }, ?_, rfl, rfl⟩
      rw [hinv]
      simp
    · refine ⟨_, rfl, { stripe_invoice_id := iid, stripe_customer_id := cid, stripe_subscription_id := extract_subscription_id_from_invoice obj, amount_paid := obj.amount_paid, amount_due := obj.amount_due, currency := obj.currency, status := obj.status, paid_at := to_dt_from_unix obj.status_transitions_paid_at, raw_json := obj, created_at := now }, ?_, rfl, rfl⟩
      simp
/-- Witness for C7: an invoice-paid payload whose only subscription
reference sits in the first line item is recorded with it. -/
theorem c7_witness :
    ∃ db2, processEvent (fun _ => none) noConc 0 {}
      { type := some "invoice.payment_succeeded",
        data_object := some { id := some "in_1", customer := some "cus_1", lines := [{ parent := some { subscription_item_details := some { subscription := some "sub_nested" } } }] } }
      = .done db2
      ∧ ∃ inv, inv ∈ db2.invoices ∧ inv.stripe_invoice_id = "in_1"
        ∧ inv.stripe_subscription_id = extract_subscription_id_from_invoice
            { id := some "in_1", customer := some "cus_1", lines := [{ parent := some { subscription_item_details := some { subscription := some "sub_nested" } } }] } :=
  c7_subscription_id_fallback_chain.2 (fun _ => none) 0 {} _ _ "in_1" "cus_1"
    rfl rfl rfl rfl (by decide)

/-- The replacement row is a member of the updated table when the lookup
found a row. -/
theorem mem_updateFirst {α : Type} {p : α → Bool} {r x : α} {l : List α}
    (h : l.find? p = some x) : r ∈ updateFirst p r l := by
  induction l with
  | nil => exact Option.noConfusion h
  | cons a as ih =>
    by_cases hp : p a
    · simp [updateFirst, hp]
    · rw [List.find?_cons_of_neg as hp] at h
      simp only [updateFirst, if_neg hp, List.mem_cons]
      right
      exact ih h

/-- A failed lookup means no row satisfies the predicate. -/
theorem any_eq_false_of_find?_eq_none {α : Type} {p : α → Bool} {l : List α}
    (h : l.find? p = none) : l.any p = false := by
  rw [List.find?_eq_none] at h
  simp only [List.any_eq_false]
  exact fun x hx => by simp [h x hx]

/-- Without concurrent writers, a subscription upsert supplied a price id
always commits, and the resulting row carries the requested id and status. -/
theorem upsert_subscription_noConc_ok (db : DB) (uid : Int)
    (subId cusId pid st : String) (cape : Bool) (cps cpe ca : Option Nat)
    (tx : Option String) (now : Nat) :
    ∃ r db2, upsert_subscription db noConc uid subId cusId (some pid) st cape cps cpe ca tx now
      = .ok (r, db2) ∧ r.stripe_subscription_id = subId ∧ r.status = st
      ∧ r ∈ db2.subscriptions := by
  unfold upsert_subscription
  cases hf : db.subscriptions.find? (fun s => s.stripe_subscription_id == subId) with
  | some sub =>
    refine ⟨_, _, rfl, ?_, rfl, ?_⟩
    · have hbeq := List.find?_some hf
      exact eq_of_beq hbeq
    · exact mem_updateFirst hf
  | none =>
    dsimp only
    rw [if_neg (by simp [noConc, any_eq_false_of_find?_eq_none hf])]
    exact ⟨_, _, rfl, rfl, rfl, by simp⟩

/-- C4: for every customer.subscription.deleted event that is processed (the
event carries a customer id for which a Customer row resolves a usable user
id and a subscription id, and its embedded items yield a committable price
id — possibly the empty string, which is what an event without items yields;
a None price id would make the upsert COMMIT violate NOT NULL instead), the
Subscription row stored by the upsert has status canceled, regardless of the
status value reported in the event's data object. -/
theorem c4_deleted_event_forces_canceled (retrieve : String → Option SubDetail)
    (now : Nat) (db : DB) (e : Event) (obj : EventObj) (cid sid pid : String)
    (c : StripeCustomer)
    (hty : e.type = some "customer.subscription.deleted")
    (hobj : e.data_object = some obj)
    (hcid : obj.customer = some cid) (hcid2 : cid ≠ "")
    (hfind : db.customers.find? (fun x => x.stripe_customer_id == cid) = some c)
    (huid : c.user_id ≠ 0)
    (hsid : obj.id = some sid) (hsid2 : sid ≠ "")
    (hprice : price_id_from_items obj.items = some pid) :
    ∃ db2, processEvent retrieve noConc now db e = .done db2
      ∧ ∃ r, r ∈ db2.subscriptions ∧ r.stripe_subscription_id = sid
        ∧ r.status = "canceled" := by
  have huser : user_id_by_customer db obj.customer = some c.user_id := by
    unfold user_id_by_customer
    rw [hcid]
    rw [if_pos (by simp [truthyStr, hcid2])]
    dsimp only [Option.getD]
    rw [hfind]
  unfold processEvent
  rw [hobj, hty]
  dsimp only
  rw [if_neg (by decide), if_neg (by decide), if_neg (by decide), if_pos (by decide)]
  unfold processSubscriptionLifecycle
  dsimp only
  rw [huser, hsid, hcid]
  rw [if_pos (by simp [truthyInt, truthyStr, huid, hsid2])]
  rw [if_pos (by decide)]
  dsimp only [Option.getD]
  rw [hprice]
  obtain ⟨r, db2, hup, hrid, hrst, hmem⟩ := upsert_subscription_noConc_ok db c.user_id sid
    cid pid "canceled" obj.cancel_at_period_end
    (to_dt_from_unix obj.current_period_start) (to_dt_from_unix obj.current_period_end)
    (to_dt_from_unix obj.canceled_at) none now
  rw [hup]
  exact ⟨db2, rfl, r, hmem, hrid, hrst⟩

/-- Witness for C4: a deleted event whose payload still reports status
active is stored as canceled. -/
theorem c4_witness :
    ∃ db2, processEvent (fun _ => none) noConc 0
      { customers := [{ user_id := 3, stripe_customer_id := "cus_1" }] }
      { type := some "customer.subscription.deleted",
        data_object := some { id := some "sub_9", customer := some "cus_1", status := some "active" } }
      = .done db2
      ∧ ∃ r, r ∈ db2.subscriptions ∧ r.stripe_subscription_id = "sub_9"
        ∧ r.status = "canceled" :=
  c4_deleted_event_forces_canceled (fun _ => none) 0
    { customers := [{ user_id := 3, stripe_customer_id := "cus_1" }] }
    _ _ "cus_1" "sub_9" "" { user_id := 3, stripe_customer_id := "cus_1" }
    rfl rfl rfl (by decide) (by decide) (by decide) rfl (by decide) rfl

/-- C3 counterexample: a confirm call whose session is complete and paid and
whose subscription id already has a local row, but whose supplied
correlation id disagrees with the session's stored one, is answered with an
HTTP 400 error (line 580), not with the active/synced=false response. -/
theorem c3_counterexample :
    confirm_payment "sk"
      (fun _ => some { status := some "complete", payment_status := some "paid",
                       subscription := some "sub_1", customer := some "cus_1",
                       metadata_transaction_id := some "a" })
      (fun _ => none) noConc 0 { session_id := "cs_1", transaction_id := some "b" }
      { subscriptions := [{ user_id := 1, stripe_subscription_id := "sub_1", stripe_customer_id := "cus_1", price_id := "p", status := "active" }] }
      = .error { status_code := 400, detail := "transaction_id no coincide" } := rfl

/-- C3 (amended): provided the service is configured and the correlation-id
check passes (the supplied transaction id does not disagree with the
session's stored one), every confirm call whose session is complete/paid
with a subscription id for which a local Subscription row already exists
returns ok=true, status active, synced=false, and performs no database
mutation: the state is returned unchanged, so no duplicate row and no field
change. -/
theorem c3_existing_subscription_short_circuits (secretKey : String)
    (retrieveSession : String → Option SessionDetail)
    (retrieveSub : String → Option SubDetail) (conc : Conc) (now : Nat)
    (payload : ConfirmRequest) (db : DB) (s : SessionDetail) (sid : String)
    (row : StripeSubscription)
    (hsk : secretKey ≠ "")
    (hs : retrieveSession payload.session_id = some s)
    (htx : (truthyStr payload.transaction_id
            && pyStrip (s.metadata_transaction_id.getD "") != ""
            && pyStrip (payload.transaction_id.getD "")
                != pyStrip (s.metadata_transaction_id.getD "")) = false)
    (hst : s.status = some "complete")
    (hpay : s.payment_status = some "paid" ∨ s.payment_status = some "no_payment_required")
    (hsub : s.subscription = some sid) (hsid : sid ≠ "")
    (hrow : db.subscriptions.find? (fun r => r.stripe_subscription_id == sid) = some row) :
    confirm_payment secretKey retrieveSession retrieveSub conc now payload db
      = .ok ({ ok := true, status := "active", subscription_id := some sid,
               customer_id := s.customer, synced := false }, db) := by
  have hc : (s.status == some "complete"
      && (s.payment_status == some "paid" || s.payment_status == some "no_payment_required")) = true := by
    rcases hpay with h | h <;> simp [hst, h]
  unfold confirm_payment
  rw [if_neg (by simp [hsk]), hs]
  dsimp only
  rw [if_neg (by simp [htx])]
  rw [if_neg (by simp [hc])]
  rw [hsub]
  rw [if_neg (by simp [truthyStr, hsid])]
  dsimp only [Option.getD]
  rw [hrow]

/-- Witness for the amended C3 at a concrete repeated confirm. -/
theorem c3_witness :
    confirm_payment "sk"
      (fun _ => some { status := some "complete", payment_status := some "paid",
                       subscription := some "sub_1", customer := some "cus_1",
                       metadata_transaction_id := some "a" })
      (fun _ => none) noConc 0 { session_id := "cs_1" }
      { subscriptions := [{ user_id := 1, stripe_subscription_id := "sub_1", stripe_customer_id := "cus_1", price_id := "p", status := "active" }] }
      = .ok ({ ok := true, status := "active", subscription_id := some "sub_1",
               customer_id := some "cus_1", synced := false },
             { subscriptions := [{ user_id := 1, stripe_subscription_id := "sub_1", stripe_customer_id := "cus_1", price_id := "p", status := "active" }] }) :=
  c3_existing_subscription_short_circuits "sk" _ _ noConc 0 { session_id := "cs_1" }
    _ _ "sub_1" { user_id := 1, stripe_subscription_id := "sub_1", stripe_customer_id := "cus_1", price_id := "p", status := "active" }
    (by decide) rfl (by decide) rfl (Or.inl rfl) rfl (by decide) (by decide)

/-- C9: a confirm call whose checkout session cannot be retrieved from the
processor fails with the invalid-session error, and every confirm response
carries a status drawn from the set {active, pending, pending_webhook,
not_paid, invalid} (stated under the ambient precondition that the API key
is configured; a missing key is the configuration fault recorded at C2). -/
theorem c9_confirm_failure_modes (secretKey : String)
    (retrieveSession : String → Option SessionDetail)
    (retrieveSub : String → Option SubDetail) (conc : Conc) (now : Nat)
    (payload : ConfirmRequest) (db : DB) (hsk : secretKey ≠ "") :
    (retrieveSession payload.session_id = none →
      confirm_payment secretKey retrieveSession retrieveSub conc now payload db
        = .error { status_code := 400, detail := "session_id inválido" })
    ∧ (∀ r db2, confirm_payment secretKey retrieveSession retrieveSub conc now payload db
        = .ok (r, db2) →
      r.status = "active" ∨ r.status = "pending" ∨ r.status = "pending_webhook"
        ∨ r.status = "not_paid" ∨ r.status = "invalid") := by
  constructor
  · intro h
    unfold confirm_payment
    rw [if_neg (by simp [hsk]), h]
  · intro r db2 h
    unfold confirm_payment at h
    rw [if_neg (by simp [hsk])] at h
    dsimp only at h
    repeat' split at h
    all_goals
      first
      | (simp only [Except.ok.injEq, Prod.mk.injEq] at h
         obtain ⟨hr, -⟩ := h
         subst hr
         simp)
      | exact absurd h (by simp)

/-- Witness for C9 at a concrete unretrievable session. -/
theorem c9_witness :
    confirm_payment "sk" (fun _ => none) (fun _ => none) noConc 0
      { session_id := "cs_1" } {}
      = .error { status_code := 400, detail := "session_id inválido" } :=
  (c9_confirm_failure_modes "sk" (fun _ => none) (fun _ => none) noConc 0
      { session_id := "cs_1" } {} (by decide)).1 rfl
